import Mathlib

/-
Verification of the timetable-ai system against its specification.

The repository ships a React/TypeScript frontend (src/frontend and the
dashboard/component files), a Prisma schema, and documentation of a Python
backend (optimizer, voting coordinator, reallocation service) that is not
part of the source tree.  Frontend computations are embedded directly from
the TypeScript source; backend operations that the spec describes but whose
code is absent are modelled from the spec, each marked
"Modelled from the spec:" in its doc comment.
-/

set_option autoImplicit false

namespace TimetableAI

/-! ## Frontend data model (src/frontend/src/types/index.ts) -/

/-- TimeSlot record from src/frontend/src/types/index.ts lines 34-39. -/
structure TimeSlot where
  id : String
  day : String
  start_time : String
  end_time : String
deriving DecidableEq

/-- Schedule record from src/frontend/src/types/index.ts lines 41-48;
the `type` field holds "theory" | "lab" | "project". -/
structure Schedule where
  id : String
  course_name : String
  teacher_name : String
  room : String
  time_slot : TimeSlot
  type : String
deriving DecidableEq

/-- Timetable record from src/frontend/src/types/index.ts lines 50-58.
JS numbers are embedded as Nat (semester) and Rat (score). -/
structure Timetable where
  id : String
  institute_id : String
  semester : Nat
  schedules : List Schedule
  is_optimized : Bool
  optimization_score : Rat
  created_at : String

/-- VoteTally shape: the `votes` object of VoteProposal,
src/frontend/src/types/index.ts lines 70-74. -/
structure VoteTally where
  yes : Nat
  no : Nat
  total : Nat
deriving DecidableEq

/-! ## Schedule grid and free-slot display (ScheduleGrid, StudentDashboard) -/

/-- The fixed daily hour grid of ScheduleGrid (daily view), literal list of
the source (src/unnamed/part_003 lines 414-417). -/
def dailyTimeSlots : List String :=
  ["9:00-10:00", "10:00-11:00", "11:00-12:00", "12:00-13:00",
   "13:00-14:00", "14:00-15:00", "15:00-16:00", "16:00-17:00"]

/-- The fixed weekday list of ScheduleGrid (weekly view), literal list of
the source (src/unnamed/part_003 line 465). -/
def daysOfWeek : List String :=
  ["Monday", "Tuesday", "Wednesday", "Thursday", "Friday"]

/-- The class count the student dashboard reads from an optional timetable:
`timetable?.schedules.length || 0` (src/unnamed/part_001). -/
def countClasses : Option Timetable → Nat
  | some t => t.schedules.length
  | none => 0

/-- The "Free Slots" figure of the student dashboard:
`40 - (timetable?.schedules.length || 0)` (src/unnamed/part_001 line 363).
JS numbers can go negative, hence Int. -/
def freeSlotsDisplayed (t : Option Timetable) : Int :=
  40 - (countClasses t : Int)

/-! ## Vote percentage (VoteCard.getVotePercentage, src/unnamed/part_002) -/

/-- getVotePercentage from src/unnamed/part_002 lines 60-63:
`if (total === 0) return 0; return Math.round((votes / total) * 100);`
JS division is embedded as exact rational division (the guard makes the
divisor nonzero) and Math.round as Mathlib round, which agrees with
JS rounding (half up) on nonnegative values. -/
def getVotePercentage (votes total : Nat) : Int :=
  if total = 0 then 0 else round (((votes : Rat) / (total : Rat)) * 100)

/-! ## Admin dashboard average classroom utilization (src/unnamed/part_001) -/

/-- classroom_utilization entry of Analytics,
src/frontend/src/types/index.ts lines 106-111. -/
structure ClassroomUtilization where
  room_id : String
  room_name : String
  utilization_percentage : Rat
  total_hours : Rat

/-- teacher_load entry of Analytics,
src/frontend/src/types/index.ts lines 100-105. -/
structure TeacherLoad where
  teacher_id : String
  teacher_name : String
  total_hours : Rat
  subjects : List String

/-- Analytics record from src/frontend/src/types/index.ts lines 99-117
(the conflict_resolution list is not used by the embedded computations). -/
structure Analytics where
  teacher_load : List TeacherLoad
  classroom_utilization : List ClassroomUtilization

/-- The reduce over utilization percentages in AdminDashboard
(src/unnamed/part_001 line 760): `reduce((acc, room) => acc + room.utilization_percentage, 0)`. -/
def sumUtilization (rooms : List ClassroomUtilization) : Rat :=
  rooms.foldl (fun acc room => acc + room.utilization_percentage) 0

/-- The "Classroom Utilization" stat of AdminDashboard
(src/unnamed/part_001 line 760):
`analytics ? Math.round(analytics.classroom_utilization.reduce(..., 0) / analytics.classroom_utilization.length) : 0`.
When the list is empty the JS code computes `Math.round(0 / 0)` = NaN;
NaN is embedded as `none`, an ordinary number as `some`. -/
def avgClassroomUtilization (analytics : Option Analytics) : Option Int :=
  match analytics with
  | none => some 0
  | some a =>
      if a.classroom_utilization.length = 0 then none
      else some (round (sumUtilization a.classroom_utilization /
                        (a.classroom_utilization.length : Rat)))

/-! ## Vote submission interface (src/frontend/src/services/api.ts) -/

/-- The request body posted by ApiService.submitVote
(src/frontend/src/services/api.ts lines 123-129):
`{ proposal_id: proposalId, vote }` -- and nothing else. -/
structure SubmitVoteRequest where
  proposal_id : String
  vote : Bool
deriving DecidableEq

/-- ApiService.submitVote builds its request body from the proposal id and
the boolean vote only (src/frontend/src/services/api.ts lines 123-129). -/
def submitVote (proposalId : String) (vote : Bool) : SubmitVoteRequest :=
  ⟨proposalId, vote⟩

/-- Student identity fields of the Student record
(src/frontend/src/types/index.ts lines 12-17, trimmed to identity). -/
structure StudentUser where
  id : String
  name : String
deriving DecidableEq

/-- handleVote of StudentDashboard (src/unnamed/part_001 lines 256-272):
the logged-in user is in scope but the call is
`apiService.submitVote(proposalId, vote)`; no voter identifier enters the
submission body. -/
def handleVoteRequest (user : StudentUser) (proposalId : String) (vote : Bool) :
    SubmitVoteRequest :=
  submitVote proposalId vote

/-! ## Unavailability reporting (src/frontend/src/services/api.ts) -/

/-- The request body of ApiService.reportUnavailability
(src/frontend/src/services/api.ts lines 101-109): exactly a professor id,
an assignment id, a date, and a reason. -/
structure UnavailabilityRequest where
  professor_id : String
  assignment_id : String
  unavailability_date : String
  reason : String
deriving DecidableEq

/-- Modelled from the spec: the backend store behind
`report_unavailability(event) -> reallocation_id` (section 6); the Python
service (dynamic_reallocation_service.py) is not under src/.  The store
keeps a fresh-id counter and the reported events keyed by reallocation id. -/
structure ReallocationStore where
  nextId : Nat
  events : List (Nat × UnavailabilityRequest)

/-- Modelled from the spec: `report_unavailability(event) -> reallocation_id`
(section 6) registers the event and returns its reallocation identifier. -/
def reportUnavailability (ev : UnavailabilityRequest) (st : ReallocationStore) :
    Nat × ReallocationStore :=
  (st.nextId, ⟨st.nextId + 1, (st.nextId, ev) :: st.events⟩)

/-- Lookup of a reported event by reallocation id in the modelled store. -/
def findEvent (rid : Nat) (st : ReallocationStore) : Option UnavailabilityRequest :=
  (st.events.filter (fun p => p.1 == rid)).head?.map Prod.snd

/-! ## Voting Coordinator (modelled from the spec, section 4.6)

The Python voting service (StudentVote handling) is not under src/; the
ballot model below follows the spec's Ballot data model (section 3) and the
`cast_vote` / `tally` contract (section 4.6), with the status values and
the deadline comparison taken from the frontend VoteCard
(src/unnamed/part_002: `status: 'active' | 'completed' | 'expired'`,
`isExpired = new Date(proposal.deadline) < new Date()`). -/

/-- Ballot status values, the VoteProposal statuses of
src/frontend/src/types/index.ts line 69. -/
inductive BallotStatus
  | active
  | completed
  | expired
deriving DecidableEq

/-- A voter identifier (student id). -/
abbrev Voter := String

/-- Modelled from the spec: Ballot = reallocation id, eligible voter set,
deadline, collected votes (section 3).  Instants are Nat timestamps. -/
structure Ballot where
  reallocation_id : String
  eligible_voters : List Voter
  deadline : Nat
  status : BallotStatus
  votes : List (Voter × Bool)

/-- Result of a cast_vote call: `ok | rejected` (spec section 6). -/
inductive CastVoteResult
  | ok
  | rejected
deriving DecidableEq

/-- Overwrite the vote of a voter already on record, else append a new
record; one record per voter. -/
def updateVote : List (Voter × Bool) → Voter → Bool → List (Voter × Bool)
  | [], u, v => [(u, v)]
  | (w, x) :: rest, u, v =>
      if w = u then (u, v) :: rest else (w, x) :: updateVote rest u v

/-- Modelled from the spec: `cast_vote(ballot_id, voter_id, value)` --
idempotent per voter (later vote overwrites earlier), rejected if voter
ineligible or deadline passed (section 4.6); a vote on a non-active
proposal is likewise rejected (VoteCard accepts votes only on active,
unexpired proposals). -/
def castVote (now : Nat) (b : Ballot) (voter : Voter) (value : Bool) :
    CastVoteResult × Ballot :=
  if b.status = BallotStatus.active ∧ now ≤ b.deadline ∧ voter ∈ b.eligible_voters then
    (CastVoteResult.ok,
     ⟨b.reallocation_id, b.eligible_voters, b.deadline, b.status,
      updateVote b.votes voter value⟩)
  else
    (CastVoteResult.rejected, b)

/-- Number of yes votes on record. -/
def yesCount (votes : List (Voter × Bool)) : Nat :=
  (votes.filter (fun p => p.2)).length

/-- Number of no votes on record. -/
def noCount (votes : List (Voter × Bool)) : Nat :=
  (votes.filter (fun p => !p.2)).length

/-- Modelled from the spec: `tally(ballot_id) -> {yes, no, total}`
(section 4.6). -/
def tallyOf (votes : List (Voter × Bool)) : VoteTally :=
  ⟨yesCount votes, noCount votes, votes.length⟩

/-- Outcome of a closed ballot. -/
inductive BallotOutcome
  | accept
  | reject
deriving DecidableEq

/-- Modelled from the spec: majority = yes strictly greater than no; a tie
is not a majority (section 4.6). -/
def ballotOutcome (votes : List (Voter × Bool)) : BallotOutcome :=
  if noCount votes < yesCount votes then BallotOutcome.accept
  else BallotOutcome.reject

/-! ## Constraint engine and optimizer (modelled from the spec, sections 4.1-4.2)

The Python CP-SAT style optimizer (src/ml in the original layout) is not
under src/.  The model below follows the spec's Assignment tuple
(section 3), the hard double-booking constraints (section 4.1), and the
time-budget contract of the optimizer (section 4.2). -/

/-- Modelled from the spec: Assignment = unique
(course, faculty, room, timeslot, section) tuple (section 3).  Ids are Nat;
timeslot is a Nat code of the (day, period) grid cell.  The section id
field is named sectionId because `section` is a Lean keyword. -/
structure Assignment where
  course : Nat
  faculty : Nat
  room : Nat
  timeslot : Nat
  sectionId : Nat
deriving DecidableEq

/-- Two assignments double-book each other: same timeslot and a shared
faculty, room, or section (spec section 4.1, hard constraints). -/
def hardConflict (a b : Assignment) : Bool :=
  a.timeslot == b.timeslot &&
    (a.faculty == b.faculty || a.room == b.room || a.sectionId == b.sectionId)

/-- A candidate schedule passes the double-booking hard constraints:
no pair of its assignments conflicts. -/
def conflictFree : List Assignment → Bool
  | [] => true
  | a :: rest => rest.all (fun b => !hardConflict a b) && conflictFree rest

/-- Modelled from the spec: the constraint engine rejects any candidate
violating a hard constraint (section 4.1); `solve` returns the first
candidate passing them, in the fixed deterministic candidate order. -/
def solveSchedule (cands : List (List Assignment)) : Option (List Assignment) :=
  (cands.filter conflictFree).head?

/-- Best-scoring candidate of a list (first wins ties), the optimizer's
selection among feasible candidates (spec section 4.2). -/
def bestCandidate (score : List Assignment → Int) :
    List (List Assignment) → Option (List Assignment)
  | [] => none
  | c :: rest =>
      match bestCandidate score rest with
      | none => some c
      | some b => if score b < score c then some c else some b

/-- The backend counterpart of the frontend Timetable record: the schedule
produced by one optimization run, carrying the `is_optimized` flag of
src/frontend/src/types/index.ts line 55. -/
structure GeneratedTimetable where
  institute_id : String
  semester : Nat
  assignments : List Assignment
  is_optimized : Bool
  optimization_score : Int

/-- Modelled from the spec: the optimizer searches the candidate space
within its time budget and returns the best-scoring feasible schedule
found; on timeout (budget exhausted before the search space is covered) it
returns the best candidate found so far flagged `is_optimized = false`
rather than failing; with no feasible candidate it is Infeasible (none)
(sections 4.2 and 7).  The budget is the number of candidates explored. -/
def generateSchedule (score : List Assignment → Int) (budget : Nat)
    (cands : List (List Assignment)) (instituteId : String) (semester : Nat) :
    Option GeneratedTimetable :=
  let feasible := (cands.take budget).filter conflictFree
  match bestCandidate score feasible with
  | none => none
  | some s =>
      some ⟨instituteId, semester, s, decide (cands.length ≤ budget), score s⟩

/-- The admin approval card's optimization status label
(src/unnamed/part_003 lines 149-166):
`timetable.is_optimized ? 'Optimized' : 'Pending Optimization'`. -/
def optimizationStatusLabel (isOptimized : Bool) : String :=
  if isOptimized then "Optimized" else "Pending Optimization"

/-! ## Helper lemmas -/

/-- The yes and no counts of a vote record partition it. -/
theorem yesCount_add_noCount (votes : List (Voter × Bool)) :
    yesCount votes + noCount votes = votes.length := by
  induction votes with
  | nil => rfl
  | cons p rest ih =>
      cases hp : p.2 <;>
        simp [yesCount, noCount, List.filter, hp] at ih ⊢ <;> omega

/-- A yes count never exceeds the number of votes. -/
theorem yesCount_le_length (votes : List (Voter × Bool)) :
    yesCount votes ≤ votes.length :=
  le_of_le_of_eq (Nat.le_add_right _ _) (yesCount_add_noCount votes)

/-- Overwriting a voter's record twice keeps only the later value. -/
theorem updateVote_updateVote (l : List (Voter × Bool)) (u : Voter) (v1 v2 : Bool) :
    updateVote (updateVote l u v1) u v2 = updateVote l u v2 := by
  induction l with
  | nil => simp [updateVote]
  | cons p rest ih =>
      by_cases hw : p.1 = u
      · simp [updateVote, hw]
      · simp [updateVote, hw, ih]

/-- A conflict-free schedule has no conflicting pair, position-wise. -/
theorem conflictFree_pairwise (l : List Assignment) (h : conflictFree l = true) :
    List.Pairwise (fun a b => hardConflict a b = false) l := by
  induction l with
  | nil => exact List.Pairwise.nil
  | cons a rest ih =>
      simp only [conflictFree, Bool.and_eq_true, List.all_eq_true] at h
      refine List.Pairwise.cons (fun b hb => ?_) (ih h.2)
      have := h.1 b hb
      simpa using this

/-- The best candidate is drawn from the candidate list. -/
theorem bestCandidate_mem (score : List Assignment → Int)
    (l : List (List Assignment)) (b : List Assignment)
    (h : bestCandidate score l = some b) : b ∈ l := by
  induction l with
  | nil => simp [bestCandidate] at h
  | cons c rest ih =>
      rw [bestCandidate] at h
      cases hr : bestCandidate score rest with
      | none => rw [hr] at h; simp at h; simp [h]
      | some x =>
          rw [hr] at h
          simp only [] at h
          by_cases hs : score x < score c
          · rw [if_pos hs] at h
            simp at h
            simp [h]
          · rw [if_neg hs] at h
            simp at h
            exact List.mem_cons_of_mem c (ih (h ▸ hr))

/-- A nonempty candidate list yields a best candidate. -/
theorem bestCandidate_of_ne_nil (score : List Assignment → Int)
    (l : List (List Assignment)) (h : l ≠ []) :
    ∃ b, bestCandidate score l = some b := by
  cases l with
  | nil => exact absurd rfl h
  | cons c rest =>
      rw [bestCandidate]
      cases bestCandidate score rest with
      | none => exact ⟨c, rfl⟩
      | some x =>
          by_cases hs : score x < score c
          · exact ⟨c, by simp [hs]⟩
          · exact ⟨x, by simp [hs]⟩

/-- Folding addition of utilization percentages equals the mapped sum. -/
theorem sumUtilization_eq_map_sum (rooms : List ClassroomUtilization) :
    sumUtilization rooms =
      (rooms.map (fun room => room.utilization_percentage)).sum := by
  have key : ∀ (l : List ClassroomUtilization) (init : Rat),
      l.foldl (fun acc room => acc + room.utilization_percentage) init =
        init + (l.map (fun room => room.utilization_percentage)).sum := by
    intro l
    induction l with
    | nil => intro init; simp
    | cons room rest ih =>
        intro init
        simp [ih, add_assoc]
  simpa using key rooms 0

/-! ## Claim theorems -/

/-- C1: for every ballot vote record with N voters of whom Y vote yes and
N-Y vote no, the tallied outcome is accept iff Y is strictly greater than
N-Y; in particular a tie is not accepted.  Modelled from the spec (the
voting backend is not under src/). -/
theorem majority_outcome_correct (votes : List (Voter × Bool)) :
    (ballotOutcome votes = BallotOutcome.accept ↔
      votes.length - yesCount votes < yesCount votes) ∧
    (yesCount votes = noCount votes →
      ballotOutcome votes = BallotOutcome.reject) := by
  have hpart := yesCount_add_noCount votes
  constructor
  · unfold ballotOutcome
    by_cases hlt : noCount votes < yesCount votes
    · rw [if_pos hlt]
      constructor
      · intro _; omega
      · intro _; rfl
    · rw [if_neg hlt]
      constructor
      · intro h; exact absurd h (by simp)
      · intro h; omega
  · intro htie
    unfold ballotOutcome
    rw [if_neg (by omega)]

/-- Witness for C1: a 3-voter ballot with 2 yes is accepted; a 2-voter
tie is rejected. -/
theorem majority_outcome_correct_witness :
    ballotOutcome [("s1", true), ("s2", true), ("s3", false)] =
      BallotOutcome.accept ∧
    yesCount [("s1", true), ("s2", false)] =
      noCount [("s1", true), ("s2", false)] ∧
    ballotOutcome [("s1", true), ("s2", false)] = BallotOutcome.reject := by
  refine ⟨?_, by decide, ?_⟩
  · exact (majority_outcome_correct
      [("s1", true), ("s2", true), ("s3", false)]).1.mpr (by decide)
  · exact (majority_outcome_correct [("s1", true), ("s2", false)]).2 (by decide)

/-- C3: a vote cast after the deadline or on a non-active ballot is
rejected and leaves the recorded tally unchanged; an eligible voter's vote
cast before the deadline on an active ballot is accepted.  Modelled from
the spec (the voting backend is not under src/). -/
theorem late_or_inactive_vote_rejected (now : Nat) (b : Ballot)
    (voter : Voter) (value : Bool) :
    (b.status ≠ BallotStatus.active ∨ b.deadline < now →
      castVote now b voter value = (CastVoteResult.rejected, b) ∧
      tallyOf (castVote now b voter value).2.votes = tallyOf b.votes) ∧
    (b.status = BallotStatus.active → now ≤ b.deadline →
      voter ∈ b.eligible_voters →
      (castVote now b voter value).1 = CastVoteResult.ok) := by
  constructor
  · intro h
    have hcond : ¬(b.status = BallotStatus.active ∧ now ≤ b.deadline ∧
        voter ∈ b.eligible_voters) := by
      rintro ⟨h1, h2, _⟩
      rcases h with h | h
      · exact h h1
      · omega
    unfold castVote
    rw [if_neg hcond]
    exact ⟨rfl, rfl⟩
  · intro h1 h2 h3
    unfold castVote
    rw [if_pos ⟨h1, h2, h3⟩]

/-- Witness for C3: on a ballot that expired at time 10, a vote at time 20
is rejected and the tally stays put; on the same ballot a vote at time 5 by
the eligible voter s1 is accepted. -/
theorem late_or_inactive_vote_rejected_witness :
    castVote 20 ⟨"realloc-1", ["s1", "s2"], 10, BallotStatus.active, []⟩ "s1" true =
      (CastVoteResult.rejected,
        ⟨"realloc-1", ["s1", "s2"], 10, BallotStatus.active, []⟩) ∧
    (castVote 5 ⟨"realloc-1", ["s1", "s2"], 10, BallotStatus.active, []⟩ "s1" true).1 =
      CastVoteResult.ok := by
  constructor
  · exact ((late_or_inactive_vote_rejected 20
      ⟨"realloc-1", ["s1", "s2"], 10, BallotStatus.active, []⟩ "s1" true).1
      (Or.inr (by decide))).1
  · exact (late_or_inactive_vote_rejected 5
      ⟨"realloc-1", ["s1", "s2"], 10, BallotStatus.active, []⟩ "s1" true).2
      rfl (by decide) (by simp)

/-- C4: cast_vote is idempotent per voter -- casting again before the
deadline overwrites the earlier vote, so the resulting ballot state (and
hence its tally) is the one of a single cast with the later value.
Modelled from the spec (the voting backend is not under src/). -/
theorem cast_vote_idempotent_per_voter (now : Nat) (b : Ballot) (u : Voter)
    (v1 v2 : Bool) (hs : b.status = BallotStatus.active)
    (hd : now ≤ b.deadline) (he : u ∈ b.eligible_voters) :
    castVote now (castVote now b u v1).2 u v2 = castVote now b u v2 := by
  simp [castVote, hs, hd, he, updateVote_updateVote]

/-- Witness for C4: voter s1 votes no then yes on an open ballot; the
resulting state equals the one of voting yes once. -/
theorem cast_vote_idempotent_per_voter_witness :
    castVote 5 (castVote 5 ⟨"realloc-1", ["s1", "s2"], 10, BallotStatus.active, []⟩
        "s1" false).2 "s1" true =
      castVote 5 ⟨"realloc-1", ["s1", "s2"], 10, BallotStatus.active, []⟩ "s1" true :=
  cast_vote_idempotent_per_voter 5
    ⟨"realloc-1", ["s1", "s2"], 10, BallotStatus.active, []⟩ "s1" false true
    rfl (by decide) (by simp)

/-- C2: any schedule produced by the solver passes the double-booking hard
constraints: no two of its assignments share a (faculty, timeslot),
(room, timeslot) or (section, timeslot) pair.  Modelled from the spec (the
optimizer backend is not under src/). -/
theorem generated_schedule_no_double_booking (cands : List (List Assignment))
    (s : List Assignment) (h : solveSchedule cands = some s) :
    List.Pairwise (fun a b =>
      ¬(a.faculty = b.faculty ∧ a.timeslot = b.timeslot) ∧
      ¬(a.room = b.room ∧ a.timeslot = b.timeslot) ∧
      ¬(a.sectionId = b.sectionId ∧ a.timeslot = b.timeslot)) s := by
  have hmem : s ∈ cands.filter conflictFree := by
    unfold solveSchedule at h
    have hcons := List.eq_cons_of_mem_head? (Option.mem_def.mpr h)
    rw [hcons]
    exact List.mem_cons_self s _
  have hcf : conflictFree s = true := (List.mem_filter.mp hmem).2
  refine (conflictFree_pairwise s hcf).imp ?_
  intro a b hab
  refine ⟨?_, ?_, ?_⟩ <;> rintro ⟨h1, h2⟩ <;>
    simp [hardConflict, h1, h2] at hab

/-- Witness for C2: a two-assignment candidate at distinct timeslots is
returned by the solver and is double-booking free. -/
theorem generated_schedule_no_double_booking_witness :
    solveSchedule [([⟨1, 1, 1, 1, 1⟩, ⟨2, 1, 1, 2, 1⟩] : List Assignment)] =
      some [⟨1, 1, 1, 1, 1⟩, ⟨2, 1, 1, 2, 1⟩] ∧
    List.Pairwise (fun a b =>
      ¬(a.faculty = b.faculty ∧ a.timeslot = b.timeslot) ∧
      ¬(a.room = b.room ∧ a.timeslot = b.timeslot) ∧
      ¬(a.sectionId = b.sectionId ∧ a.timeslot = b.timeslot))
      ([⟨1, 1, 1, 1, 1⟩, ⟨2, 1, 1, 2, 1⟩] : List Assignment) :=
  ⟨rfl, generated_schedule_no_double_booking
    [([⟨1, 1, 1, 1, 1⟩, ⟨2, 1, 1, 2, 1⟩] : List Assignment)] _ rfl⟩

/-- C5: when the time budget runs out before the candidate space is
covered, the optimizer still returns a feasible schedule (the best found)
rather than failing, flagged is_optimized = false, which the admin UI
renders as "Pending Optimization".  Modelled from the spec (the optimizer
backend is not under src/). -/
theorem timeout_returns_degraded_best (score : List Assignment → Int)
    (budget : Nat) (cands : List (List Assignment)) (instituteId : String)
    (semester : Nat) (hb : budget < cands.length) (c : List Assignment)
    (hc : c ∈ cands.take budget) (hcf : conflictFree c = true) :
    ∃ t, generateSchedule score budget cands instituteId semester = some t ∧
      t.is_optimized = false ∧ conflictFree t.assignments = true ∧
      optimizationStatusLabel t.is_optimized = "Pending Optimization" := by
  have hne : (cands.take budget).filter conflictFree ≠ [] :=
    List.ne_nil_of_mem (List.mem_filter.mpr ⟨hc, hcf⟩)
  obtain ⟨b, hbest⟩ := bestCandidate_of_ne_nil score _ hne
  have hbf : conflictFree b = true :=
    (List.mem_filter.mp (bestCandidate_mem score _ b hbest)).2
  have hopt : decide (cands.length ≤ budget) = false :=
    decide_eq_false_iff_not.mpr (by omega)
  refine ⟨⟨instituteId, semester, b, decide (cands.length ≤ budget), score b⟩,
    ?_, hopt, hbf, ?_⟩
  · simp only [generateSchedule]
    rw [hbest]
  · show optimizationStatusLabel (decide (cands.length ≤ budget)) = _
    rw [hopt]
    rfl

/-- Witness for C5: two candidates, budget for one; the run returns the
explored feasible candidate flagged not optimized. -/
theorem timeout_returns_degraded_best_witness :
    1 < ([[(⟨1, 1, 1, 1, 1⟩ : Assignment)], [⟨1, 1, 1, 1, 1⟩]] : List (List Assignment)).length ∧
    ∃ t, generateSchedule (fun _ => 0) 1 [[⟨1, 1, 1, 1, 1⟩], [⟨1, 1, 1, 1, 1⟩]]
        "inst-1" 3 = some t ∧ t.is_optimized = false := by
  refine ⟨by decide, ?_⟩
  obtain ⟨t, h1, h2, _, _⟩ := timeout_returns_degraded_best (fun _ => 0) 1
    [[⟨1, 1, 1, 1, 1⟩], [⟨1, 1, 1, 1, 1⟩]] "inst-1" 3 (by decide)
    [⟨1, 1, 1, 1, 1⟩] (by simp) (by decide)
  exact ⟨t, h1, h2⟩

/-- C6 counterexample: two distinct logged-in students produce identical
submitVote request bodies, so the voter's identity is not part of the vote
submission built by the exposed interface
(src/frontend/src/services/api.ts lines 123-129). -/
theorem submit_vote_carries_no_voter_id :
    (⟨"student-1", "Alice"⟩ : StudentUser) ≠ (⟨"student-2", "Bob"⟩ : StudentUser) ∧
    handleVoteRequest ⟨"student-1", "Alice"⟩ "proposal-1" true =
      handleVoteRequest ⟨"student-2", "Bob"⟩ "proposal-1" true :=
  ⟨by decide, rfl⟩

/-- C6 (amended): the exposed vote submission takes a proposal (ballot)
identifier and a boolean vote value only; its body is independent of the
logged-in voter, whose identity travels implicitly with the session. -/
theorem submit_vote_request_shape (u u' : StudentUser) (proposalId : String)
    (vote : Bool) :
    handleVoteRequest u proposalId vote = submitVote proposalId vote ∧
    handleVoteRequest u proposalId vote = handleVoteRequest u' proposalId vote ∧
    (submitVote proposalId vote).proposal_id = proposalId ∧
    (submitVote proposalId vote).vote = vote :=
  ⟨rfl, rfl, rfl, rfl⟩

/-- C7: report_unavailability accepts an event of exactly a professor id,
an assignment id, a date and a reason, and returns a reallocation
identifier under which the event is registered.  The request shape is the
frontend's; the returned identifier is modelled from the spec. -/
theorem report_unavailability_registers_event (ev : UnavailabilityRequest)
    (st : ReallocationStore) :
    findEvent (reportUnavailability ev st).1 (reportUnavailability ev st).2 =
      some ev ∧
    ev = ⟨ev.professor_id, ev.assignment_id, ev.unavailability_date, ev.reason⟩ := by
  constructor
  · simp [reportUnavailability, findEvent]
  · rfl

/-- C8: the weekly grid is 5 weekdays times 8 one-hour periods from 9:00
to 17:00, 40 slots in all, and the student dashboard's free-slot figure is
that grid size minus the number of scheduled classes. -/
theorem weekly_grid_and_free_slots :
    daysOfWeek.length = 5 ∧ dailyTimeSlots.length = 8 ∧
    daysOfWeek.length * dailyTimeSlots.length = 40 ∧
    dailyTimeSlots.head? = some "9:00-10:00" ∧
    dailyTimeSlots.getLast? = some "16:00-17:00" ∧
    ∀ t : Timetable, freeSlotsDisplayed (some t) =
      (daysOfWeek.length * dailyTimeSlots.length : Int) -
        (t.schedules.length : Int) := by
  refine ⟨rfl, rfl, rfl, rfl, rfl, fun t => ?_⟩
  simp [freeSlotsDisplayed, countClasses, daysOfWeek, dailyTimeSlots]

/-- C9: the vote-percentage computation is total: it returns 0 when
total = 0, and the rounding of 100 * votes / total otherwise (with the
closed Nat form (200 * votes + total) / (2 * total)); no division by zero
can arise. -/
theorem vote_percentage_total_and_correct (votes total : Nat) :
    getVotePercentage votes 0 = 0 ∧
    (0 < total →
      getVotePercentage votes total =
        round ((100 * (votes : Rat)) / (total : Rat))) ∧
    (0 < total →
      getVotePercentage votes total =
        (((200 * votes + total) / (2 * total) : Nat) : Int)) := by
  refine ⟨by simp [getVotePercentage], fun ht => ?_, fun ht => ?_⟩
  · unfold getVotePercentage
    rw [if_neg (Nat.pos_iff_ne_zero.mp ht)]
    congr 1
    ring
  · unfold getVotePercentage
    rw [if_neg (Nat.pos_iff_ne_zero.mp ht)]
    have htq : (total : Rat) ≠ 0 :=
      Nat.cast_ne_zero.mpr (Nat.pos_iff_ne_zero.mp ht)
    rw [round_eq]
    have hx : ((votes : Rat) / (total : Rat)) * 100 + 1 / 2 =
        ((200 * votes + total : Nat) : Rat) / ((2 * total : Nat) : Rat) := by
      push_cast
      field_simp
      ring
    rw [hx, Rat.floor_natCast_div_natCast]
    exact (Int.natCast_div _ _).symm

/-- Witness for C9: 1 yes vote out of 8 displays as 13 percent
(12.5 rounded half up); a zero total displays as 0. -/
theorem vote_percentage_total_and_correct_witness :
    getVotePercentage 1 0 = 0 ∧ 0 < 8 ∧ getVotePercentage 1 8 = 13 := by
  refine ⟨(vote_percentage_total_and_correct 1 0).1, by decide, ?_⟩
  have h := (vote_percentage_total_and_correct 1 8).2.2 (by decide)
  rw [h]
  decide

/-- C10: the admin dashboard's classroom-utilization figure is 0 when
analytics is absent, the rounded mean of the utilization percentages when
the list is non-empty, and NaN (modelled none) when analytics is present
with an empty list, since the division is not guarded by the length. -/
theorem admin_avg_utilization_guarded (a : Analytics) :
    avgClassroomUtilization none = some 0 ∧
    (a.classroom_utilization = [] → avgClassroomUtilization (some a) = none) ∧
    (a.classroom_utilization ≠ [] →
      avgClassroomUtilization (some a) =
        some (round ((a.classroom_utilization.map
            (fun room => room.utilization_percentage)).sum /
          (a.classroom_utilization.length : Rat)))) := by
  refine ⟨rfl, fun h => ?_, fun h => ?_⟩
  · simp [avgClassroomUtilization, h]
  · have hlen : a.classroom_utilization.length ≠ 0 :=
      fun hl => h (List.length_eq_zero.mp hl)
    show (if a.classroom_utilization.length = 0 then none
      else some (round (sumUtilization a.classroom_utilization /
        (a.classroom_utilization.length : Rat)))) = _
    rw [if_neg hlen, sumUtilization_eq_map_sum]

/-- Witness for C10: analytics with an empty utilization list yields NaN;
a one-room list with 50 percent utilization yields 50. -/
theorem admin_avg_utilization_guarded_witness :
    avgClassroomUtilization (some ⟨[], []⟩) = none ∧
    avgClassroomUtilization (some ⟨[], [⟨"r1", "Room 1", 50, 10⟩]⟩) = some 50 := by
  constructor
  · exact (admin_avg_utilization_guarded ⟨[], []⟩).2.1 rfl
  · have h := (admin_avg_utilization_guarded
      ⟨[], [⟨"r1", "Room 1", 50, 10⟩]⟩).2.2 (by simp)
    rw [h]
    norm_num [round_eq]

end TimetableAI
